import Mathlib

/-!
# ApeX MultiSigPool deployment scripts

A shallow embedding of `scripts/deploy.js` and `scripts/verify_pool.js`.

Both scripts are straight-line asynchronous procedures over three outside
collaborators reached through the Hardhat runtime object `hre`:
the signer provider (`hre.ethers.getSigners`), the contract factory
(`hre.ethers.getContractFactory` and the factory's `deploy`), and the task
runner (`hre.run`).  A `World` fixes how each awaited call settles: `.ok v`
for a fulfilled promise, `.error e` for a rejected one (or a synchronous
throw); a call that never settles is outside the model.  Every effect a
script performs is appended to a trace of `Event`s in program order, so
ordering properties are properties of that list.
-/

namespace ApexScripts

/-- Values that can reach the top-level `catch` handler of a script. -/
inductive JsError where
  | typeError (message : String)
  | referenceError (message : String)
  | rejection (reason : String)
  deriving DecidableEq, Repr

/-- Argument values handed to the deployment and verification services:
an array of strings or a single string. -/
inductive Arg where
  | array (items : List String)
  | str (value : String)
  deriving DecidableEq, Repr

/-- An entry of the array returned by `hre.ethers.getSigners()`. -/
structure Account where
  address : String
  deriving DecidableEq, Repr

/-- The object a factory's `deploy` resolves to. -/
structure Contract where
  address : String
  deriving DecidableEq, Repr

/-- The object `hre.ethers.getContractFactory` resolves to. -/
structure ContractFactory where
  deploy : List Arg → Except JsError Contract

/-- The task-arguments object literal given to `hre.run`. -/
structure TaskArguments where
  address : String
  contract : String
  constructorArguments : List Arg
  deriving DecidableEq, Repr

/-- Effects of a run, in program order.  `awaitDeployed` stands for awaiting
the confirmation promise of a deployed contract (`contract.deployed()` in
ethers); it is part of the vocabulary so that confirmation can be talked
about. -/
inductive Event where
  | getSigners
  | getContractFactory (name : String)
  | deploy (args : List Arg)
  | awaitDeployed
  | run (task : String) (taskArguments : TaskArguments)
  | log (line : String)
  | error (value : JsError)
  | exit (code : Nat)
  deriving DecidableEq, Repr

/-- How a value that may be `undefined` is rendered by `console.log`. -/
def display : Option String → String
  | some s => s
  | none => "undefined"

/-- Node's `util.format` on string arguments, for the one directive the
scripts use (`%s`): each `%s` consumes the next argument, arguments left over
are appended, each after a single space. -/
def formatChars : List Char → List String → List Char
  | [], [] => []
  | [], a :: rest => ' ' :: (a.toList ++ formatChars [] rest)
  | '%' :: 's' :: cs, a :: rest => a.toList ++ formatChars cs rest
  | c :: cs, args => c :: formatChars cs args

/-- The line `console.log(fmt, ...args)` writes. -/
def format (fmt : String) (args : List String) : String :=
  String.mk (formatChars fmt.toList args)

/-- The exit code a trace ends the process with, if it does. -/
def exitCode : List Event → Option Nat
  | [] => none
  | Event.exit c :: _ => some c
  | _ :: rest => exitCode rest

/-- Lines written to standard output, in order. -/
def stdout : List Event → List String
  | [] => []
  | Event.log line :: rest => line :: stdout rest
  | _ :: rest => stdout rest

/-- Values written to standard error, in order. -/
def stderr : List Event → List JsError
  | [] => []
  | Event.error e :: rest => e :: stderr rest
  | _ :: rest => stderr rest

/-- Argument lists of the invocations of a factory's `deploy`, in order. -/
def deployCalls : List Event → List (List Arg)
  | [] => []
  | Event.deploy args :: rest => args :: deployCalls rest
  | _ :: rest => deployCalls rest

/-- Requests issued to the task runner, in order. -/
def runCalls : List Event → List (String × TaskArguments)
  | [] => []
  | Event.run task targs :: rest => (task, targs) :: runCalls rest
  | _ :: rest => runCalls rest

/-- Whether an event is an awaited call to an outside collaborator. -/
def Event.isAwaitedCall : Event → Bool
  | .getSigners => true
  | .getContractFactory _ => true
  | .deploy _ => true
  | .awaitDeployed => true
  | .run _ _ => true
  | _ => false

/-- The awaited calls of a trace, in order. -/
def awaitedCalls (trace : List Event) : List Event :=
  trace.filter Event.isAwaitedCall

/-- Whether an event is a confirmation wait. -/
def Event.isConfirmation : Event → Bool
  | .awaitDeployed => true
  | _ => false

/-- Whether a character is a hexadecimal digit. -/
def isHexDigit (c : Char) : Bool :=
  (48 ≤ c.toNat && c.toNat ≤ 57) || (65 ≤ c.toNat && c.toNat ≤ 70) ||
    (97 ≤ c.toNat && c.toNat ≤ 102)

/-- Whether a string is `0x` followed by exactly 40 hexadecimal digits. -/
def isAddress (s : String) : Bool :=
  match s.toList with
  | '0' :: 'x' :: digits => digits.length == 40 && digits.all isHexDigit
  | _ => false

/-- Character codes of a string with the letters A to Z folded to lower
case. -/
def foldCase (s : String) : List Nat :=
  s.toList.map fun c =>
    if 65 ≤ c.toNat ∧ c.toNat ≤ 90 then c.toNat + 32 else c.toNat

namespace Deploy

def verifyStr : String := "npx hardhat verify --network"

def assetType : String :=
  "0xa21edc9d9997b1b1956f542fe95922518a9e28ace11b7b2972a1974bf5971f"

def usdcAddress : String := "0xd44BB808bfE43095dBb94c83077766382D63952a"

def starkEx : String := "0x7478037C3a1F44f0Add4Ae06158fefD10d44Bb63"

def factAddress : String := "0x5070F5d37419AEAd10Df2252421e457336561269"

def oneInchAddress : String := "0x1111111254fb6c44bAC0beD2854e76F90643097d"

def signers : List String :=
  [ "0x9F41154D472dD406B907A2F6827d6Be5D3215bcB",
    "0x086E48b2752194E6cd85b7FEA18B1513162196b8",
    "0x94f397b322F3A914e15c6C058356F4839bCC5b1B" ]

/-- The argument list of the `MultiSigPool.deploy(...)` call in
`createMultiSigPool`. -/
def deployArguments : List Arg :=
  [Arg.array signers, Arg.str usdcAddress, Arg.str oneInchAddress,
    Arg.str starkEx, Arg.str factAddress, Arg.str assetType]

/-- What the deploy script sees of its surroundings. -/
structure World where
  getSigners : Except JsError (List Account)
  getContractFactory : String → Except JsError ContractFactory
  hardhatNetwork : Option String

/-- Module-level variables of `deploy.js` (`pool`, `signer`, and the
undeclared `multiSigPool`, which the assignment makes a global), with the
trace of effects so far. -/
structure State where
  pool : Option String
  signer : Option String
  multiSigPool : Option Contract
  trace : List Event
  deriving DecidableEq, Repr

/-- State at module load: `let pool; let signer;`. -/
def State.initial : State :=
  { pool := none, signer := none, multiSigPool := none, trace := [] }

/-- Record one effect. -/
def State.emit (s : State) (e : Event) : State :=
  { s with trace := s.trace ++ [e] }

/-- The effect of `console.log(fmt, ...args)`. -/
def State.consoleLog (s : State) (fmt : String) (args : List String) : State :=
  s.emit (Event.log (format fmt args))

/-- The body of `createMultiSigPool`. -/
def createMultiSigPool (w : World) (s : State) : Except JsError Unit × State :=
  let s := s.emit (Event.getContractFactory "MultiSigPool")
  match w.getContractFactory "MultiSigPool" with
  | .error e => (.error e, s)
  | .ok MultiSigPool =>
    let s := s.emit (Event.deploy deployArguments)
    match MultiSigPool.deploy deployArguments with
    | .error e => (.error e, s)
    | .ok multiSigPool =>
      let s := { s with multiSigPool := some multiSigPool }
      let s := s.consoleLog "multisig wallet deployed to:" [multiSigPool.address]
      let s := { s with pool := some multiSigPool.address }
      let s := s.consoleLog "pool address:%s" [display s.pool]
      let s := s.consoleLog verifyStr [display w.hardhatNetwork, multiSigPool.address]
      (.ok (), s)

/-- The body of `main`.  `accounts[0]` of an empty array is `undefined`, and
reading `.address` of it throws a `TypeError`.  The identifier `verify` has no
declaration in `deploy.js` and is not imported, so evaluating `verify()`
throws a `ReferenceError`. -/
def main (w : World) (s : State) : Except JsError Unit × State :=
  let s := s.emit Event.getSigners
  match w.getSigners with
  | .error e => (.error e, s)
  | .ok accounts =>
    match accounts.head? with
    | none =>
      (.error (.typeError "Cannot read properties of undefined (reading \x27address\x27)"), s)
    | some account =>
      let s := { s with signer := some account.address }
      let s := s.consoleLog "signer address:%s" [display s.signer]
      match createMultiSigPool w s with
      | (.error e, s) => (.error e, s)
      | (.ok (), s) => (.error (.referenceError "verify is not defined"), s)

/-- The whole script: `main().then(() => process.exit(0)).catch(...)`. -/
def script (w : World) : State :=
  match main w State.initial with
  | (.ok (), s) => s.emit (Event.exit 0)
  | (.error e, s) => (s.emit (Event.error e)).emit (Event.exit 1)

end Deploy

namespace VerifyPool

def assetType : String :=
  "0xa21edc9d9997b1b1956f542fe95922518a9e28ace11b7b2972a1974bf5971f"

def usdcAddress : String := "0xd44BB808bfE43095dBb94c83077766382D63952a"

def starkEx : String := "0x7478037C3a1F44f0Add4Ae06158fefD10d44Bb63"

def factAddress : String := "0x5070F5d37419AEAd10Df2252421e457336561269"

def oneInchAddress : String := "0x1111111254fb6c44bAC0beD2854e76F90643097d"

def signers : List String :=
  [ "0x9F41154D472dD406B907A2F6827d6Be5D3215bcB",
    "0x086E48b2752194E6cd85b7FEA18B1513162196b8",
    "0x94f397b322F3A914e15c6C058356F4839bCC5b1B" ]

/-- The `constructorArguments` array of the request in `verifyPool`. -/
def constructorArguments : List Arg :=
  [Arg.array signers, Arg.str usdcAddress, Arg.str oneInchAddress,
    Arg.str starkEx, Arg.str factAddress, Arg.str assetType]

/-- What the verify script sees of its surroundings. -/
structure World where
  getSigners : Except JsError (List Account)
  run : String → TaskArguments → Except JsError Unit

/-- Module-level variables of `verify_pool.js`, with the trace of effects so
far. -/
structure State where
  pool : String
  signer : Option String
  trace : List Event
  deriving DecidableEq, Repr

/-- State at module load: `let pool = '0xC73a...'; let signer;`. -/
def State.initial : State :=
  { pool := "0xC73ac64cE48750C5d273ab1886Aff3AF34cbA33f", signer := none, trace := [] }

/-- Record one effect. -/
def State.emit (s : State) (e : Event) : State :=
  { s with trace := s.trace ++ [e] }

/-- The effect of `console.log(fmt, ...args)`. -/
def State.consoleLog (s : State) (fmt : String) (args : List String) : State :=
  s.emit (Event.log (format fmt args))

/-- The object literal `verifyPool` passes to `hre.run`; `pool` is read from
the module state. -/
def taskArguments (s : State) : TaskArguments :=
  { address := s.pool,
    contract := "contracts/core/MultiSigPool.sol:MultiSigPool",
    constructorArguments := constructorArguments }

/-- The body of `verifyPool`. -/
def verifyPool (w : World) (s : State) : Except JsError Unit × State :=
  let s := s.emit (Event.run "verify:verify" (taskArguments s))
  match w.run "verify:verify" (taskArguments s) with
  | .error e => (.error e, s)
  | .ok () => (.ok (), s)

/-- The body of `main`. -/
def main (w : World) (s : State) : Except JsError Unit × State :=
  let s := s.emit Event.getSigners
  match w.getSigners with
  | .error e => (.error e, s)
  | .ok accounts =>
    match accounts.head? with
    | none =>
      (.error (.typeError "Cannot read properties of undefined (reading \x27address\x27)"), s)
    | some account =>
      let s := { s with signer := some account.address }
      let s := s.consoleLog "signer address:%s" [display s.signer]
      verifyPool w s

/-- The whole script: `main().then(() => process.exit(0)).catch(...)`. -/
def script (w : World) : State :=
  match main w State.initial with
  | (.ok (), s) => s.emit (Event.exit 0)
  | (.error e, s) => (s.emit (Event.error e)).emit (Event.exit 1)

end VerifyPool


/-- A deploy-script world in which every awaited call succeeds. -/
def deployWorldOk : Deploy.World :=
  { getSigners := .ok [{ address := "0xA1" }],
    getContractFactory := fun _ => .ok { deploy := fun _ => .ok { address := "0xP" } },
    hardhatNetwork := some "goerli" }

/-- A deploy-script world whose signer provider returns no account. -/
def deployWorldNoAccounts : Deploy.World :=
  { getSigners := .ok [],
    getContractFactory := fun _ => .ok { deploy := fun _ => .ok { address := "0xP" } },
    hardhatNetwork := some "goerli" }

/-- A deploy-script world whose signer provider throws. -/
def deployWorldNoProvider : Deploy.World :=
  { getSigners := .error (.rejection "no provider"),
    getContractFactory := fun _ => .ok { deploy := fun _ => .ok { address := "0xP" } },
    hardhatNetwork := some "goerli" }

/-- A verify-script world in which every awaited call succeeds. -/
def verifyWorldOk : VerifyPool.World :=
  { getSigners := .ok [{ address := "0xA1" }],
    run := fun _ _ => .ok () }

/-- A verify-script world whose verification service rejects the request. -/
def verifyWorldRejected : VerifyPool.World :=
  { getSigners := .ok [{ address := "0xA1" }],
    run := fun _ _ => .error (.rejection "bytecode does not match") }

/-- A verify-script world whose signer provider returns no account. -/
def verifyWorldNoAccounts : VerifyPool.World :=
  { getSigners := .ok [],
    run := fun _ _ => .ok () }

/-- A verify-script world whose signer provider throws. -/
def verifyWorldNoProvider : VerifyPool.World :=
  { getSigners := .error (.rejection "no provider"),
    run := fun _ _ => .ok () }

/-- The property that a run of the deploy script reports the deployed address
only after a confirmation wait: every `console.log` line ending in the address
of the deployed contract has a confirmation event somewhere before it. -/
def ReportsAfterConfirmation (w : Deploy.World) : Prop :=
  ∀ (c : Contract) (before : List Event) (line : String) (after : List Event),
    (Deploy.script w).multiSigPool = some c →
    (Deploy.script w).trace = before ++ Event.log line :: after →
    c.address.toList <:+ line.toList →
    ∃ e ∈ before, e.isConfirmation = true

/-- The property that both scripts await at most two outside calls in
every run. -/
def AtMostTwoAwaitedCalls : Prop :=
  (∀ w : Deploy.World, (awaitedCalls (Deploy.script w).trace).length ≤ 2) ∧
  (∀ w : VerifyPool.World, (awaitedCalls (VerifyPool.script w).trace).length ≤ 2)

/-- The property that the verify script throws only when one of its awaited
calls does: whenever signer resolution and the verification request both
fulfil, nothing reaches the error output. -/
def ThrowsOnlyFromAwaitedCalls : Prop :=
  ∀ (w : VerifyPool.World) (accounts : List Account), w.getSigners = .ok accounts →
    w.run "verify:verify" (VerifyPool.taskArguments VerifyPool.State.initial) = .ok () →
    stderr (VerifyPool.script w).trace = []

/-! ## Projections of a trace and appending -/

theorem stdout_append (xs ys : List Event) :
    stdout (xs ++ ys) = stdout xs ++ stdout ys := by
  induction xs with
  | nil => rfl
  | cons e rest ih => cases e <;> simp [stdout, ih]

theorem deployCalls_append (xs ys : List Event) :
    deployCalls (xs ++ ys) = deployCalls xs ++ deployCalls ys := by
  induction xs with
  | nil => rfl
  | cons e rest ih => cases e <;> simp [deployCalls, ih]

/-! ## What `console.log` prints for the format strings of the scripts -/

theorem format_signer (a : String) :
    format "signer address:%s" [a] = "signer address:" ++ a := by
  apply String.ext
  simp [format, formatChars]

theorem format_deployed (a : String) :
    format "multisig wallet deployed to:" [a] = "multisig wallet deployed to: " ++ a := by
  apply String.ext
  simp [format, formatChars]

theorem format_pool (a : String) :
    format "pool address:%s" [a] = "pool address:" ++ a := by
  apply String.ext
  simp [format, formatChars]

theorem format_verifyStr (n a : String) :
    format "npx hardhat verify --network" [n, a] =
      "npx hardhat verify --network " ++ n ++ " " ++ a := by
  apply String.ext
  simp [format, formatChars]

/-! ## The runs of `createMultiSigPool` -/

theorem createMultiSigPool_factory_error (w : Deploy.World) (s : Deploy.State)
    (e : JsError) (hF : w.getContractFactory "MultiSigPool" = .error e) :
    Deploy.createMultiSigPool w s =
      (.error e, { s with trace := s.trace ++ [Event.getContractFactory "MultiSigPool"] }) := by
  simp [Deploy.createMultiSigPool, hF, Deploy.State.emit]

theorem createMultiSigPool_deploy_error (w : Deploy.World) (s : Deploy.State)
    (F : ContractFactory) (e : JsError)
    (hF : w.getContractFactory "MultiSigPool" = .ok F)
    (hD : F.deploy Deploy.deployArguments = .error e) :
    Deploy.createMultiSigPool w s =
      (.error e, { s with trace := s.trace ++
        [Event.getContractFactory "MultiSigPool", Event.deploy Deploy.deployArguments] }) := by
  simp [Deploy.createMultiSigPool, hF, hD, Deploy.State.emit]

theorem createMultiSigPool_deploy_ok (w : Deploy.World) (s : Deploy.State)
    (F : ContractFactory) (c : Contract)
    (hF : w.getContractFactory "MultiSigPool" = .ok F)
    (hD : F.deploy Deploy.deployArguments = .ok c) :
    Deploy.createMultiSigPool w s =
      (.ok (), { pool := some c.address, signer := s.signer, multiSigPool := some c,
                 trace := s.trace ++
                  [Event.getContractFactory "MultiSigPool",
                   Event.deploy Deploy.deployArguments,
                   Event.log ("multisig wallet deployed to: " ++ c.address),
                   Event.log ("pool address:" ++ c.address),
                   Event.log ("npx hardhat verify --network " ++ display w.hardhatNetwork
                     ++ " " ++ c.address)] }) := by
  simp [Deploy.createMultiSigPool, hF, hD, Deploy.State.emit, Deploy.State.consoleLog,
    Deploy.verifyStr, display, format_deployed, format_pool, format_verifyStr]

/-! ## The runs of the deploy script -/

theorem deploy_run_signers_error (w : Deploy.World) (e : JsError)
    (hS : w.getSigners = .error e) :
    Deploy.script w =
      { pool := none, signer := none, multiSigPool := none,
        trace := [Event.getSigners, Event.error e, Event.exit 1] } := by
  simp [Deploy.script, Deploy.main, hS, Deploy.State.emit, Deploy.State.initial]

theorem deploy_run_no_account (w : Deploy.World) (hS : w.getSigners = .ok []) :
    Deploy.script w =
      { pool := none, signer := none, multiSigPool := none,
        trace := [Event.getSigners,
          Event.error (.typeError "Cannot read properties of undefined (reading \x27address\x27)"),
          Event.exit 1] } := by
  simp [Deploy.script, Deploy.main, hS, Deploy.State.emit, Deploy.State.initial]

theorem deploy_run_factory_error (w : Deploy.World) (a : Account) (rest : List Account)
    (e : JsError) (hS : w.getSigners = .ok (a :: rest))
    (hF : w.getContractFactory "MultiSigPool" = .error e) :
    Deploy.script w =
      { pool := none, signer := some a.address, multiSigPool := none,
        trace := [Event.getSigners, Event.log ("signer address:" ++ a.address),
          Event.getContractFactory "MultiSigPool", Event.error e, Event.exit 1] } := by
  simp [Deploy.script, Deploy.main, hS, createMultiSigPool_factory_error w _ e hF,
    Deploy.State.emit, Deploy.State.consoleLog, Deploy.State.initial, display, format_signer]

theorem deploy_run_deploy_error (w : Deploy.World) (a : Account) (rest : List Account)
    (F : ContractFactory) (e : JsError) (hS : w.getSigners = .ok (a :: rest))
    (hF : w.getContractFactory "MultiSigPool" = .ok F)
    (hD : F.deploy Deploy.deployArguments = .error e) :
    Deploy.script w =
      { pool := none, signer := some a.address, multiSigPool := none,
        trace := [Event.getSigners, Event.log ("signer address:" ++ a.address),
          Event.getContractFactory "MultiSigPool", Event.deploy Deploy.deployArguments,
          Event.error e, Event.exit 1] } := by
  simp [Deploy.script, Deploy.main, hS, createMultiSigPool_deploy_error w _ F e hF hD,
    Deploy.State.emit, Deploy.State.consoleLog, Deploy.State.initial, display, format_signer]

theorem deploy_run_deploy_ok (w : Deploy.World) (a : Account) (rest : List Account)
    (F : ContractFactory) (c : Contract) (hS : w.getSigners = .ok (a :: rest))
    (hF : w.getContractFactory "MultiSigPool" = .ok F)
    (hD : F.deploy Deploy.deployArguments = .ok c) :
    Deploy.script w =
      { pool := some c.address, signer := some a.address, multiSigPool := some c,
        trace := [Event.getSigners, Event.log ("signer address:" ++ a.address),
          Event.getContractFactory "MultiSigPool", Event.deploy Deploy.deployArguments,
          Event.log ("multisig wallet deployed to: " ++ c.address),
          Event.log ("pool address:" ++ c.address),
          Event.log ("npx hardhat verify --network " ++ display w.hardhatNetwork
            ++ " " ++ c.address),
          Event.error (.referenceError "verify is not defined"), Event.exit 1] } := by
  simp [Deploy.script, Deploy.main, hS, createMultiSigPool_deploy_ok w _ F c hF hD,
    Deploy.State.emit, Deploy.State.consoleLog, Deploy.State.initial, display, format_signer]

/-! ## The runs of the verify script -/

theorem verify_run_signers_error (w : VerifyPool.World) (e : JsError)
    (hS : w.getSigners = .error e) :
    VerifyPool.script w =
      { pool := "0xC73ac64cE48750C5d273ab1886Aff3AF34cbA33f", signer := none,
        trace := [Event.getSigners, Event.error e, Event.exit 1] } := by
  simp [VerifyPool.script, VerifyPool.main, hS, VerifyPool.State.emit,
    VerifyPool.State.initial]

theorem verify_run_no_account (w : VerifyPool.World) (hS : w.getSigners = .ok []) :
    VerifyPool.script w =
      { pool := "0xC73ac64cE48750C5d273ab1886Aff3AF34cbA33f", signer := none,
        trace := [Event.getSigners,
          Event.error (.typeError "Cannot read properties of undefined (reading \x27address\x27)"),
          Event.exit 1] } := by
  simp [VerifyPool.script, VerifyPool.main, hS, VerifyPool.State.emit,
    VerifyPool.State.initial]

theorem verify_run_request_error (w : VerifyPool.World) (a : Account) (rest : List Account)
    (e : JsError) (hS : w.getSigners = .ok (a :: rest))
    (hR : w.run "verify:verify" (VerifyPool.taskArguments VerifyPool.State.initial) = .error e) :
    VerifyPool.script w =
      { pool := "0xC73ac64cE48750C5d273ab1886Aff3AF34cbA33f", signer := some a.address,
        trace := [Event.getSigners, Event.log ("signer address:" ++ a.address),
          Event.run "verify:verify" (VerifyPool.taskArguments VerifyPool.State.initial),
          Event.error e, Event.exit 1] } := by
  simp only [VerifyPool.taskArguments, VerifyPool.State.initial] at hR
  simp [VerifyPool.script, VerifyPool.main, VerifyPool.verifyPool, hS, hR,
    VerifyPool.taskArguments, VerifyPool.State.emit, VerifyPool.State.consoleLog,
    VerifyPool.State.initial, display, format_signer]

theorem verify_run_request_ok (w : VerifyPool.World) (a : Account) (rest : List Account)
    (hS : w.getSigners = .ok (a :: rest))
    (hR : w.run "verify:verify" (VerifyPool.taskArguments VerifyPool.State.initial) = .ok ()) :
    VerifyPool.script w =
      { pool := "0xC73ac64cE48750C5d273ab1886Aff3AF34cbA33f", signer := some a.address,
        trace := [Event.getSigners, Event.log ("signer address:" ++ a.address),
          Event.run "verify:verify" (VerifyPool.taskArguments VerifyPool.State.initial),
          Event.exit 0] } := by
  simp only [VerifyPool.taskArguments, VerifyPool.State.initial] at hR
  simp [VerifyPool.script, VerifyPool.main, VerifyPool.verifyPool, hS, hR,
    VerifyPool.taskArguments, VerifyPool.State.emit, VerifyPool.State.consoleLog,
    VerifyPool.State.initial, display, format_signer]

/-! ## Calls made by a whole run -/

theorem deploy_script_deployCalls (w : Deploy.World) :
    deployCalls (Deploy.script w).trace = [] ∨
      deployCalls (Deploy.script w).trace = [Deploy.deployArguments] := by
  rcases hS : w.getSigners with e | accounts
  · left; rw [deploy_run_signers_error w e hS]; simp [deployCalls]
  · rcases accounts with _ | ⟨a, rest⟩
    · left; rw [deploy_run_no_account w hS]; simp [deployCalls]
    · rcases hF : w.getContractFactory "MultiSigPool" with e | F
      · left; rw [deploy_run_factory_error w a rest e hS hF]; simp [deployCalls]
      · rcases hD : F.deploy Deploy.deployArguments with e | c
        · right; rw [deploy_run_deploy_error w a rest F e hS hF hD]; simp [deployCalls]
        · right; rw [deploy_run_deploy_ok w a rest F c hS hF hD]; simp [deployCalls]

theorem verify_script_runCalls (w : VerifyPool.World) :
    runCalls (VerifyPool.script w).trace = [] ∨
      runCalls (VerifyPool.script w).trace =
        [("verify:verify", VerifyPool.taskArguments VerifyPool.State.initial)] := by
  rcases hS : w.getSigners with e | accounts
  · left; rw [verify_run_signers_error w e hS]; simp [runCalls]
  · rcases accounts with _ | ⟨a, rest⟩
    · left; rw [verify_run_no_account w hS]; simp [runCalls]
    · rcases hR : w.run "verify:verify" (VerifyPool.taskArguments VerifyPool.State.initial)
        with e | ⟨⟩
      · right; rw [verify_run_request_error w a rest e hS hR]; simp [runCalls]
      · right; rw [verify_run_request_ok w a rest hS hR]; simp [runCalls]

/-! ## The claims -/

/-- C1: whenever the signer provider returns a non-empty account list and the
factory lookup for "MultiSigPool" returns a factory, `createMultiSigPool`
calls that factory's `deploy` once, with exactly six arguments in this order:
the three signer addresses (as declared), `usdcAddress`, `oneInchAddress`,
`starkEx`, `factAddress`, `assetType`; the outcome of the procedure is the
outcome of that very call. -/
theorem createMultiSigPool_passes_six_arguments (w : Deploy.World) (a : Account)
    (rest : List Account) (F : ContractFactory)
    (hS : w.getSigners = .ok (a :: rest))
    (hF : w.getContractFactory "MultiSigPool" = .ok F) :
    Deploy.deployArguments =
      [Arg.array ["0x9F41154D472dD406B907A2F6827d6Be5D3215bcB",
                  "0x086E48b2752194E6cd85b7FEA18B1513162196b8",
                  "0x94f397b322F3A914e15c6C058356F4839bCC5b1B"],
       Arg.str "0xd44BB808bfE43095dBb94c83077766382D63952a",
       Arg.str "0x1111111254fb6c44bAC0beD2854e76F90643097d",
       Arg.str "0x7478037C3a1F44f0Add4Ae06158fefD10d44Bb63",
       Arg.str "0x5070F5d37419AEAd10Df2252421e457336561269",
       Arg.str "0xa21edc9d9997b1b1956f542fe95922518a9e28ace11b7b2972a1974bf5971f"] ∧
    deployCalls (Deploy.script w).trace = [Deploy.deployArguments] ∧
    (∀ s : Deploy.State,
      deployCalls (Deploy.createMultiSigPool w s).2.trace =
        deployCalls s.trace ++ [Deploy.deployArguments]) ∧
    (∀ s : Deploy.State,
      (Deploy.createMultiSigPool w s).1 =
        (F.deploy Deploy.deployArguments).map fun _ => ()) := by
  refine ⟨rfl, ?_, ?_, ?_⟩
  · rcases hD : F.deploy Deploy.deployArguments with e | c
    · rw [deploy_run_deploy_error w a rest F e hS hF hD]; simp [deployCalls]
    · rw [deploy_run_deploy_ok w a rest F c hS hF hD]; simp [deployCalls]
  · intro s
    rcases hD : F.deploy Deploy.deployArguments with e | c
    · rw [createMultiSigPool_deploy_error w s F e hF hD]
      simp [deployCalls_append, deployCalls]
    · rw [createMultiSigPool_deploy_ok w s F c hF hD]
      simp [deployCalls_append, deployCalls]
  · intro s
    rcases hD : F.deploy Deploy.deployArguments with e | c
    · rw [createMultiSigPool_deploy_error w s F e hF hD]; rfl
    · rw [createMultiSigPool_deploy_ok w s F c hF hD]; rfl

/-- Witness of C1 at a world in which every call succeeds. -/
theorem createMultiSigPool_passes_six_arguments_witness :
    deployCalls (Deploy.script deployWorldOk).trace = [Deploy.deployArguments] :=
  (createMultiSigPool_passes_six_arguments deployWorldOk { address := "0xA1" } []
    { deploy := fun _ => .ok { address := "0xP" } } rfl rfl).2.1

/-- C2: whenever the signer provider returns a non-empty account list,
`verifyPool` issues exactly one request to the verification service: task
"verify:verify", the hardcoded pool address, the qualified source path, and
the six declared constructor arguments in order. The request is the same for
every account list; the resolved signer only appears in the log line. -/
theorem verifyPool_issues_one_request (w : VerifyPool.World) (a : Account)
    (rest : List Account) (hS : w.getSigners = .ok (a :: rest)) :
    runCalls (VerifyPool.script w).trace =
      [("verify:verify",
        { address := "0xC73ac64cE48750C5d273ab1886Aff3AF34cbA33f",
          contract := "contracts/core/MultiSigPool.sol:MultiSigPool",
          constructorArguments :=
            [Arg.array ["0x9F41154D472dD406B907A2F6827d6Be5D3215bcB",
                        "0x086E48b2752194E6cd85b7FEA18B1513162196b8",
                        "0x94f397b322F3A914e15c6C058356F4839bCC5b1B"],
             Arg.str "0xd44BB808bfE43095dBb94c83077766382D63952a",
             Arg.str "0x1111111254fb6c44bAC0beD2854e76F90643097d",
             Arg.str "0x7478037C3a1F44f0Add4Ae06158fefD10d44Bb63",
             Arg.str "0x5070F5d37419AEAd10Df2252421e457336561269",
             Arg.str "0xa21edc9d9997b1b1956f542fe95922518a9e28ace11b7b2972a1974bf5971f"] })] ∧
    stdout (VerifyPool.script w).trace = ["signer address:" ++ a.address] := by
  rcases hR : w.run "verify:verify" (VerifyPool.taskArguments VerifyPool.State.initial)
    with e | ⟨⟩
  · rw [verify_run_request_error w a rest e hS hR]
    exact ⟨rfl, rfl⟩
  · rw [verify_run_request_ok w a rest hS hR]
    exact ⟨rfl, rfl⟩

/-- Witness of C2 at a world in which every call succeeds. -/
theorem verifyPool_issues_one_request_witness :
    stdout (VerifyPool.script verifyWorldOk).trace = ["signer address:" ++ "0xA1"] :=
  (verifyPool_issues_one_request verifyWorldOk { address := "0xA1" } [] rfl).2

/-- C3 (what the code does where the claim expects exit code 0): in a run of
the deploy script in which signer resolution, the factory lookup and the
deployment all succeed, `main` goes on to evaluate `verify()`, an identifier
the script never declares; the resulting ReferenceError is logged and the
process exits with code 1. -/
theorem deploy_script_exits_one_after_successful_deployment :
    deployWorldOk.getSigners = .ok [{ address := "0xA1" }] ∧
    (∃ F c, deployWorldOk.getContractFactory "MultiSigPool" = .ok F ∧
      F.deploy Deploy.deployArguments = .ok c) ∧
    stdout (Deploy.script deployWorldOk).trace =
      ["signer address:0xA1", "multisig wallet deployed to: 0xP", "pool address:0xP",
       "npx hardhat verify --network goerli 0xP"] ∧
    stderr (Deploy.script deployWorldOk).trace =
      [JsError.referenceError "verify is not defined"] ∧
    exitCode (Deploy.script deployWorldOk).trace = some 1 := by
  refine ⟨rfl, ⟨_, _, rfl, rfl⟩, ?_, ?_, ?_⟩
  · rw [deploy_run_deploy_ok deployWorldOk { address := "0xA1" } []
      { deploy := fun _ => .ok { address := "0xP" } } { address := "0xP" } rfl rfl rfl]
    decide
  · rw [deploy_run_deploy_ok deployWorldOk { address := "0xA1" } []
      { deploy := fun _ => .ok { address := "0xP" } } { address := "0xP" } rfl rfl rfl]
    simp [stderr]
  · rw [deploy_run_deploy_ok deployWorldOk { address := "0xA1" } []
      { deploy := fun _ => .ok { address := "0xP" } } { address := "0xP" } rfl rfl rfl]
    simp [exitCode]

/-- C4: the verify script exits with code 0 exactly when signer resolution
returns a non-empty account list and the verification request does not throw;
every other run exits with code 1, and what is written to the error output is
exactly the thrown error: the provider's error, the TypeError raised by
reading `accounts[0].address` of an empty list, or the verification service's
error. A run that exits with 0 writes nothing to the error output. -/
theorem verify_script_exit_code (w : VerifyPool.World) :
    (exitCode (VerifyPool.script w).trace = some 0 ↔
      (∃ a rest, w.getSigners = .ok (a :: rest)) ∧
      ∀ e, w.run "verify:verify" (VerifyPool.taskArguments VerifyPool.State.initial)
        ≠ .error e) ∧
    (exitCode (VerifyPool.script w).trace ≠ some 0 →
      exitCode (VerifyPool.script w).trace = some 1) ∧
    (exitCode (VerifyPool.script w).trace = some 0 →
      stderr (VerifyPool.script w).trace = []) ∧
    (∀ e, w.getSigners = .error e → stderr (VerifyPool.script w).trace = [e]) ∧
    (w.getSigners = .ok [] →
      stderr (VerifyPool.script w).trace =
        [JsError.typeError "Cannot read properties of undefined (reading \x27address\x27)"]) ∧
    (∀ a rest e, w.getSigners = .ok (a :: rest) →
      w.run "verify:verify" (VerifyPool.taskArguments VerifyPool.State.initial) = .error e →
      stderr (VerifyPool.script w).trace = [e]) := by
  rcases hS : w.getSigners with e | accounts
  · rw [verify_run_signers_error w e hS]
    simp [exitCode, stderr]
  · rcases accounts with _ | ⟨a, rest⟩
    · rw [verify_run_no_account w hS]
      simp [exitCode, stderr]
    · rcases hR : w.run "verify:verify" (VerifyPool.taskArguments VerifyPool.State.initial)
        with e | ⟨⟩
      · rw [verify_run_request_error w a rest e hS hR]
        simp [exitCode, stderr]
      · rw [verify_run_request_ok w a rest hS hR]
        simp [exitCode, stderr]

/-- Witness of C4: a run whose verification request is rejected prints that
very rejection. -/
theorem verify_script_exit_code_witness :
    stderr (VerifyPool.script verifyWorldRejected).trace =
      [JsError.rejection "bytecode does not match"] :=
  (verify_script_exit_code verifyWorldRejected).2.2.2.2.2 { address := "0xA1" } []
    (JsError.rejection "bytecode does not match") rfl rfl

/-- C5: the constructor-argument list the verify script submits equals,
element for element and in order, the argument list the deploy script passes
to the deployment service, in every pair of runs; the two scripts declare the
same signer list and the same five other literals. -/
theorem verify_arguments_equal_deploy_arguments (wd : Deploy.World) (wv : VerifyPool.World)
    (args : List Arg) (task : String) (targs : TaskArguments)
    (hd : args ∈ deployCalls (Deploy.script wd).trace)
    (hv : (task, targs) ∈ runCalls (VerifyPool.script wv).trace) :
    targs.constructorArguments = args ∧
    VerifyPool.constructorArguments = Deploy.deployArguments ∧
    VerifyPool.signers = Deploy.signers ∧
    VerifyPool.usdcAddress = Deploy.usdcAddress ∧
    VerifyPool.oneInchAddress = Deploy.oneInchAddress ∧
    VerifyPool.starkEx = Deploy.starkEx ∧
    VerifyPool.factAddress = Deploy.factAddress ∧
    VerifyPool.assetType = Deploy.assetType := by
  refine ⟨?_, rfl, rfl, rfl, rfl, rfl, rfl, rfl⟩
  have hargs : args = Deploy.deployArguments := by
    rcases deploy_script_deployCalls wd with h | h
    · rw [h] at hd; simp at hd
    · rw [h] at hd; simpa using hd
  have htargs : targs = VerifyPool.taskArguments VerifyPool.State.initial := by
    rcases verify_script_runCalls wv with h | h
    · rw [h] at hv; simp at hv
    · rw [h] at hv
      simp only [List.mem_singleton, Prod.mk.injEq] at hv
      exact hv.2
  rw [hargs, htargs]
  rfl

/-- Witness of C5 at two worlds in which every call succeeds. -/
theorem verify_arguments_equal_deploy_arguments_witness :
    (VerifyPool.taskArguments VerifyPool.State.initial).constructorArguments =
      Deploy.deployArguments :=
  (verify_arguments_equal_deploy_arguments deployWorldOk verifyWorldOk
    Deploy.deployArguments "verify:verify"
    (VerifyPool.taskArguments VerifyPool.State.initial)
    (by rw [deploy_run_deploy_ok deployWorldOk { address := "0xA1" } []
          { deploy := fun _ => .ok { address := "0xP" } } { address := "0xP" } rfl rfl rfl]
        simp [deployCalls])
    (by rw [verify_run_request_ok verifyWorldOk { address := "0xA1" } [] rfl rfl]
        simp [runCalls])).1

/-- C6: when the factory lookup succeeds, the deployment service returns a
contract with address `a`, and HARDHAT_NETWORK holds `n`, then
`createMultiSigPool` succeeds, sets the module variable `pool` to `a`, and
writes to standard output, in this order, "multisig wallet deployed to: a",
"pool address:a" and "npx hardhat verify --network n a". -/
theorem createMultiSigPool_reports_address (w : Deploy.World) (s : Deploy.State)
    (F : ContractFactory) (c : Contract) (n : String)
    (hF : w.getContractFactory "MultiSigPool" = .ok F)
    (hD : F.deploy Deploy.deployArguments = .ok c)
    (hN : w.hardhatNetwork = some n) :
    (Deploy.createMultiSigPool w s).1 = .ok () ∧
    (Deploy.createMultiSigPool w s).2.pool = some c.address ∧
    stdout (Deploy.createMultiSigPool w s).2.trace =
      stdout s.trace ++
        ["multisig wallet deployed to: " ++ c.address,
         "pool address:" ++ c.address,
         "npx hardhat verify --network " ++ n ++ " " ++ c.address] := by
  rw [createMultiSigPool_deploy_ok w s F c hF hD, hN]
  simp [stdout_append, stdout, display]

/-- Witness of C6 at a world in which every call succeeds. -/
theorem createMultiSigPool_reports_address_witness :
    (Deploy.createMultiSigPool deployWorldOk Deploy.State.initial).2.pool = some "0xP" :=
  (createMultiSigPool_reports_address deployWorldOk Deploy.State.initial
    { deploy := fun _ => .ok { address := "0xP" } } { address := "0xP" } "goerli"
    rfl rfl rfl).2.1

/-- C7: in every run of the deploy script the deployment service is invoked
at most once, and whether it is invoked does not depend on the module state
the run starts from. It is invoked exactly once when signer resolution returns
a non-empty list and the factory lookup succeeds, and not at all when signer
resolution throws or returns an empty list; in that case the thrown error is
what the top-level handler logs, and the exit code is 1. -/
theorem deploy_invoked_at_most_once (w : Deploy.World) :
    (deployCalls (Deploy.script w).trace).length ≤ 1 ∧
    (∀ s : Deploy.State,
      deployCalls (Deploy.main w s).2.trace =
        deployCalls s.trace ++ deployCalls (Deploy.script w).trace) ∧
    (∀ a rest F, w.getSigners = .ok (a :: rest) →
      w.getContractFactory "MultiSigPool" = .ok F →
      (deployCalls (Deploy.script w).trace).length = 1) ∧
    (∀ e, w.getSigners = .error e →
      deployCalls (Deploy.script w).trace = [] ∧
      stderr (Deploy.script w).trace = [e] ∧
      exitCode (Deploy.script w).trace = some 1) ∧
    (w.getSigners = .ok [] →
      deployCalls (Deploy.script w).trace = [] ∧
      stderr (Deploy.script w).trace =
        [JsError.typeError "Cannot read properties of undefined (reading \x27address\x27)"] ∧
      exitCode (Deploy.script w).trace = some 1) := by
  rcases hS : w.getSigners with e | accounts
  · rw [deploy_run_signers_error w e hS]
    simp [Deploy.main, hS, Deploy.State.emit, deployCalls_append, deployCalls, stderr,
      exitCode]
  · rcases accounts with _ | ⟨a, rest⟩
    · rw [deploy_run_no_account w hS]
      simp [Deploy.main, hS, Deploy.State.emit, deployCalls_append, deployCalls, stderr,
        exitCode]
    · rcases hF : w.getContractFactory "MultiSigPool" with e | F
      · rw [deploy_run_factory_error w a rest e hS hF]
        simp [Deploy.main, hS, createMultiSigPool_factory_error w _ e hF,
          Deploy.State.emit, Deploy.State.consoleLog, deployCalls_append, deployCalls]
      · rcases hD : F.deploy Deploy.deployArguments with e | c
        · rw [deploy_run_deploy_error w a rest F e hS hF hD]
          simp [Deploy.main, hS, createMultiSigPool_deploy_error w _ F e hF hD,
            Deploy.State.emit, Deploy.State.consoleLog, deployCalls_append, deployCalls]
        · rw [deploy_run_deploy_ok w a rest F c hS hF hD]
          simp [Deploy.main, hS, createMultiSigPool_deploy_ok w _ F c hF hD,
            Deploy.State.emit, Deploy.State.consoleLog, deployCalls_append, deployCalls]

/-- Witness of C7: one invocation when every call succeeds, none when the
provider returns no account. -/
theorem deploy_invoked_at_most_once_witness :
    (deployCalls (Deploy.script deployWorldOk).trace).length = 1 ∧
    deployCalls (Deploy.script deployWorldNoAccounts).trace = [] :=
  ⟨(deploy_invoked_at_most_once deployWorldOk).2.2.1 { address := "0xA1" } []
      { deploy := fun _ => .ok { address := "0xP" } } rfl rfl,
   ((deploy_invoked_at_most_once deployWorldNoAccounts).2.2.2.2 rfl).1⟩

/-- C8 as stated fails: in the run where every call succeeds, the line
"multisig wallet deployed to: 0xP" is written with no confirmation wait
before it. -/
theorem deploy_reports_before_confirmation :
    ¬ ReportsAfterConfirmation deployWorldOk := by
  intro h
  have hrun := deploy_run_deploy_ok deployWorldOk { address := "0xA1" } []
    { deploy := fun _ => .ok { address := "0xP" } } { address := "0xP" } rfl rfl rfl
  obtain ⟨e, he, hc⟩ := h { address := "0xP" }
    [Event.getSigners, Event.log "signer address:0xA1",
      Event.getContractFactory "MultiSigPool", Event.deploy Deploy.deployArguments]
    "multisig wallet deployed to: 0xP"
    [Event.log "pool address:0xP", Event.log "npx hardhat verify --network goerli 0xP",
      Event.error (.referenceError "verify is not defined"), Event.exit 1]
    (by rw [hrun]) (by rw [hrun]; decide) ⟨"multisig wallet deployed to: ".toList, rfl⟩
  simp only [List.mem_cons, List.mem_singleton, List.not_mem_nil, or_false] at he
  rcases he with rfl | rfl | rfl | rfl <;> simp [Event.isConfirmation] at hc

/-- C8, amended: no run of the deploy script awaits a confirmation of the
deployed contract; when a contract was deployed, the first line carrying its
address is written directly after the `deploy` call returned. -/
theorem deploy_reports_right_after_deploy (w : Deploy.World) :
    (∀ e ∈ (Deploy.script w).trace, e.isConfirmation = false) ∧
    (∀ c, (Deploy.script w).multiSigPool = some c →
      ∃ before after, (Deploy.script w).trace =
        before ++ [Event.deploy Deploy.deployArguments,
          Event.log ("multisig wallet deployed to: " ++ c.address)] ++ after ∧
        stdout before = [display (Deploy.script w).signer].map ("signer address:" ++ ·)) := by
  rcases hS : w.getSigners with e | accounts
  · rw [deploy_run_signers_error w e hS]
    simp [Event.isConfirmation]
  · rcases accounts with _ | ⟨a, rest⟩
    · rw [deploy_run_no_account w hS]
      simp [Event.isConfirmation]
    · rcases hF : w.getContractFactory "MultiSigPool" with e | F
      · rw [deploy_run_factory_error w a rest e hS hF]
        simp [Event.isConfirmation]
      · rcases hD : F.deploy Deploy.deployArguments with e | c
        · rw [deploy_run_deploy_error w a rest F e hS hF hD]
          simp [Event.isConfirmation]
        · rw [deploy_run_deploy_ok w a rest F c hS hF hD]
          refine ⟨by simp [Event.isConfirmation], ?_⟩
          intro c2 hc2
          simp only [Option.some.injEq] at hc2
          subst hc2
          exact ⟨[Event.getSigners, Event.log ("signer address:" ++ a.address),
              Event.getContractFactory "MultiSigPool"], _, rfl, rfl⟩

/-- Witness of C8 amended at a world in which every call succeeds. -/
theorem deploy_reports_right_after_deploy_witness :
    ∃ before after, (Deploy.script deployWorldOk).trace =
      before ++ [Event.deploy Deploy.deployArguments,
        Event.log ("multisig wallet deployed to: " ++ "0xP")] ++ after ∧
      stdout before =
        [display (Deploy.script deployWorldOk).signer].map ("signer address:" ++ ·) :=
  (deploy_reports_right_after_deploy deployWorldOk).2 { address := "0xP" }
    (by rw [deploy_run_deploy_ok deployWorldOk { address := "0xA1" } []
          { deploy := fun _ => .ok { address := "0xP" } } { address := "0xP" } rfl rfl rfl])

/-- C9 as stated fails: a successful deployment run awaits three outside
calls, and a verify run with an empty account list throws although every
awaited call fulfilled. -/
theorem scripts_exceed_two_steps :
    ¬ AtMostTwoAwaitedCalls ∧ ¬ ThrowsOnlyFromAwaitedCalls := by
  constructor
  · intro h
    have h3 := h.1 deployWorldOk
    rw [deploy_run_deploy_ok deployWorldOk { address := "0xA1" } []
      { deploy := fun _ => .ok { address := "0xP" } } { address := "0xP" } rfl rfl rfl] at h3
    simp [awaitedCalls, Event.isAwaitedCall] at h3
  · intro h
    have h0 := h verifyWorldNoAccounts [] rfl rfl
    rw [verify_run_no_account verifyWorldNoAccounts rfl] at h0
    simp [stderr] at h0

/-- C9, amended: the awaited outside calls of a run are a non-empty initial
segment of a fixed sequence: signer resolution, factory lookup, deployment for
the deploy script (at most three); signer resolution, verification request
for the verify script (at most two). A call is made only when the one before
it fulfilled, and a rejected call is the error the run logs. The one throw
that is not a rejected call is the TypeError of reading `accounts[0].address`
of an empty account list. No other step throws: a verify run with a non-empty
account list and a fulfilled request logs no error and exits with 0, and a
deploy run with a non-empty account list, a fulfilled lookup and a fulfilled
deployment runs `createMultiSigPool` to its end without a throw, writing all
four lines. -/
theorem scripts_await_fixed_sequence (wd : Deploy.World) (wv : VerifyPool.World) :
    (∃ k, 1 ≤ k ∧ awaitedCalls (Deploy.script wd).trace =
      List.take k [Event.getSigners, Event.getContractFactory "MultiSigPool",
        Event.deploy Deploy.deployArguments]) ∧
    (∃ k, 1 ≤ k ∧ awaitedCalls (VerifyPool.script wv).trace =
      List.take k [Event.getSigners,
        Event.run "verify:verify" (VerifyPool.taskArguments VerifyPool.State.initial)]) ∧
    (wd.getSigners = .ok [] →
      awaitedCalls (Deploy.script wd).trace = [Event.getSigners] ∧
      stderr (Deploy.script wd).trace =
        [JsError.typeError "Cannot read properties of undefined (reading \x27address\x27)"]) ∧
    (wv.getSigners = .ok [] →
      awaitedCalls (VerifyPool.script wv).trace = [Event.getSigners] ∧
      stderr (VerifyPool.script wv).trace =
        [JsError.typeError "Cannot read properties of undefined (reading \x27address\x27)"]) ∧
    (∀ a rest, wv.getSigners = .ok (a :: rest) →
      wv.run "verify:verify" (VerifyPool.taskArguments VerifyPool.State.initial) = .ok () →
      awaitedCalls (VerifyPool.script wv).trace =
        [Event.getSigners,
          Event.run "verify:verify" (VerifyPool.taskArguments VerifyPool.State.initial)] ∧
      stderr (VerifyPool.script wv).trace = [] ∧
      exitCode (VerifyPool.script wv).trace = some 0) ∧
    (∀ e, wv.getSigners = .error e →
      awaitedCalls (VerifyPool.script wv).trace = [Event.getSigners] ∧
      stderr (VerifyPool.script wv).trace = [e]) ∧
    (∀ a rest e, wv.getSigners = .ok (a :: rest) →
      wv.run "verify:verify" (VerifyPool.taskArguments VerifyPool.State.initial) = .error e →
      awaitedCalls (VerifyPool.script wv).trace =
        [Event.getSigners,
          Event.run "verify:verify" (VerifyPool.taskArguments VerifyPool.State.initial)] ∧
      stderr (VerifyPool.script wv).trace = [e]) ∧
    (∀ e, wd.getSigners = .error e →
      awaitedCalls (Deploy.script wd).trace = [Event.getSigners] ∧
      stderr (Deploy.script wd).trace = [e]) ∧
    (∀ a rest e, wd.getSigners = .ok (a :: rest) →
      wd.getContractFactory "MultiSigPool" = .error e →
      awaitedCalls (Deploy.script wd).trace =
        [Event.getSigners, Event.getContractFactory "MultiSigPool"] ∧
      stderr (Deploy.script wd).trace = [e]) ∧
    (∀ a rest F e, wd.getSigners = .ok (a :: rest) →
      wd.getContractFactory "MultiSigPool" = .ok F →
      F.deploy Deploy.deployArguments = .error e →
      awaitedCalls (Deploy.script wd).trace =
        [Event.getSigners, Event.getContractFactory "MultiSigPool",
          Event.deploy Deploy.deployArguments] ∧
      stderr (Deploy.script wd).trace = [e]) ∧
    (∀ a rest F c, wd.getSigners = .ok (a :: rest) →
      wd.getContractFactory "MultiSigPool" = .ok F →
      F.deploy Deploy.deployArguments = .ok c →
      awaitedCalls (Deploy.script wd).trace =
        [Event.getSigners, Event.getContractFactory "MultiSigPool",
          Event.deploy Deploy.deployArguments] ∧
      (∀ s, (Deploy.createMultiSigPool wd s).1 = .ok ()) ∧
      stdout (Deploy.script wd).trace =
        ["signer address:" ++ a.address,
         "multisig wallet deployed to: " ++ c.address,
         "pool address:" ++ c.address,
         "npx hardhat verify --network " ++ display wd.hardhatNetwork ++ " " ++ c.address]) := by
  refine ⟨?_, ?_, ?_, ?_, ?_, ?_, ?_, ?_, ?_, ?_, ?_⟩
  · rcases hS : wd.getSigners with e | accounts
    · rw [deploy_run_signers_error wd e hS]
      exact ⟨1, le_refl _, by simp [awaitedCalls, Event.isAwaitedCall]⟩
    · rcases accounts with _ | ⟨a, rest⟩
      · rw [deploy_run_no_account wd hS]
        exact ⟨1, le_refl _, by simp [awaitedCalls, Event.isAwaitedCall]⟩
      · rcases hF : wd.getContractFactory "MultiSigPool" with e | F
        · rw [deploy_run_factory_error wd a rest e hS hF]
          exact ⟨2, by omega, by simp [awaitedCalls, Event.isAwaitedCall]⟩
        · rcases hD : F.deploy Deploy.deployArguments with e | c
          · rw [deploy_run_deploy_error wd a rest F e hS hF hD]
            exact ⟨3, by omega, by simp [awaitedCalls, Event.isAwaitedCall]⟩
          · rw [deploy_run_deploy_ok wd a rest F c hS hF hD]
            exact ⟨3, by omega, by simp [awaitedCalls, Event.isAwaitedCall]⟩
  · rcases hS : wv.getSigners with e | accounts
    · rw [verify_run_signers_error wv e hS]
      exact ⟨1, le_refl _, by simp [awaitedCalls, Event.isAwaitedCall]⟩
    · rcases accounts with _ | ⟨a, rest⟩
      · rw [verify_run_no_account wv hS]
        exact ⟨1, le_refl _, by simp [awaitedCalls, Event.isAwaitedCall]⟩
      · rcases hR : wv.run "verify:verify" (VerifyPool.taskArguments VerifyPool.State.initial)
          with e | ⟨⟩
        · rw [verify_run_request_error wv a rest e hS hR]
          exact ⟨2, by omega, by simp [awaitedCalls, Event.isAwaitedCall]⟩
        · rw [verify_run_request_ok wv a rest hS hR]
          exact ⟨2, by omega, by simp [awaitedCalls, Event.isAwaitedCall]⟩
  · intro hS
    rw [deploy_run_no_account wd hS]
    simp [awaitedCalls, Event.isAwaitedCall, stderr]
  · intro hS
    rw [verify_run_no_account wv hS]
    simp [awaitedCalls, Event.isAwaitedCall, stderr]
  · intro a rest hS hR
    rw [verify_run_request_ok wv a rest hS hR]
    simp [awaitedCalls, Event.isAwaitedCall, stderr, exitCode]
  · intro e hS
    rw [verify_run_signers_error wv e hS]
    simp [awaitedCalls, Event.isAwaitedCall, stderr]
  · intro a rest e hS hR
    rw [verify_run_request_error wv a rest e hS hR]
    simp [awaitedCalls, Event.isAwaitedCall, stderr]
  · intro e hS
    rw [deploy_run_signers_error wd e hS]
    simp [awaitedCalls, Event.isAwaitedCall, stderr]
  · intro a rest e hS hF
    rw [deploy_run_factory_error wd a rest e hS hF]
    simp [awaitedCalls, Event.isAwaitedCall, stderr]
  · intro a rest F e hS hF hD
    rw [deploy_run_deploy_error wd a rest F e hS hF hD]
    simp [awaitedCalls, Event.isAwaitedCall, stderr]
  · intro a rest F c hS hF hD
    refine ⟨?_, ?_, ?_⟩
    · rw [deploy_run_deploy_ok wd a rest F c hS hF hD]
      simp [awaitedCalls, Event.isAwaitedCall]
    · intro s
      rw [createMultiSigPool_deploy_ok wd s F c hF hD]
    · rw [deploy_run_deploy_ok wd a rest F c hS hF hD]
      simp [stdout]

/-- Witness of C9 amended: runs whose signer provider returns no account, a
verify run in which every call fulfils, and a deploy run in which every call
fulfils. -/
theorem scripts_await_fixed_sequence_witness :
    awaitedCalls (Deploy.script deployWorldNoAccounts).trace = [Event.getSigners] ∧
    awaitedCalls (VerifyPool.script verifyWorldNoAccounts).trace = [Event.getSigners] ∧
    stderr (VerifyPool.script verifyWorldOk).trace = [] ∧
    stderr (VerifyPool.script verifyWorldRejected).trace =
      [JsError.rejection "bytecode does not match"] ∧
    stderr (VerifyPool.script verifyWorldNoProvider).trace =
      [JsError.rejection "no provider"] ∧
    stderr (Deploy.script deployWorldNoProvider).trace =
      [JsError.rejection "no provider"] ∧
    (∀ s, (Deploy.createMultiSigPool deployWorldOk s).1 = .ok ()) :=
  ⟨((scripts_await_fixed_sequence deployWorldNoAccounts verifyWorldNoAccounts).2.2.1 rfl).1,
   ((scripts_await_fixed_sequence deployWorldNoAccounts verifyWorldNoAccounts).2.2.2.1 rfl).1,
   ((scripts_await_fixed_sequence deployWorldOk verifyWorldOk).2.2.2.2.1
      { address := "0xA1" } [] rfl rfl).2.1,
   ((scripts_await_fixed_sequence deployWorldOk verifyWorldRejected).2.2.2.2.2.2.1
      { address := "0xA1" } [] (JsError.rejection "bytecode does not match") rfl rfl).2,
   ((scripts_await_fixed_sequence deployWorldOk verifyWorldNoProvider).2.2.2.2.2.1
      (JsError.rejection "no provider") rfl).2,
   ((scripts_await_fixed_sequence deployWorldNoProvider verifyWorldOk).2.2.2.2.2.2.2.1
      (JsError.rejection "no provider") rfl).2,
   ((scripts_await_fixed_sequence deployWorldOk verifyWorldOk).2.2.2.2.2.2.2.2.2.2
      { address := "0xA1" } [] { deploy := fun _ => .ok { address := "0xP" } }
      { address := "0xP" } rfl rfl rfl).2.1⟩

set_option maxRecDepth 100000 in
/-- C10: the signer list of both scripts has exactly three entries, each is
"0x" followed by exactly 40 hexadecimal digits, and the entries are pairwise
distinct, also after folding letters to lower case. -/
theorem signers_form_valid_set :
    Deploy.signers.length = 3 ∧
    (∀ s ∈ Deploy.signers, isAddress s = true) ∧
    Deploy.signers.Nodup ∧
    (Deploy.signers.map foldCase).Nodup ∧
    VerifyPool.signers.length = 3 ∧
    (∀ s ∈ VerifyPool.signers, isAddress s = true) ∧
    VerifyPool.signers.Nodup ∧
    (VerifyPool.signers.map foldCase).Nodup := by
  decide

end ApexScripts
